import Mathlib

/-!
Shallow embedding of the Integrated Maize Advisory System (`src/project.py`).

Tables (pandas DataFrames) are embedded as lists of records; numeric columns
(`avg_rainfall_mm`, `yield_potential`) as rationals.  Python functions that can
raise are embedded with `Option`/`Except` results (a `none`/`.error` marks the
raise); all other functions are plain total functions, mirroring the source
line by line.  `str.lower` is embedded as the character-wise `lowerString` (all
table values in this program are ASCII).
-/

/-- A row of the monthly climate table: columns `state`, `month`,
`avg_rainfall_mm` (see `climate_class_from_rainfall` in `project.py`). -/
structure ClimateRecord where
  state : String
  month : String
  avg_rainfall_mm : ℚ
deriving DecidableEq, Repr

/-- A row of the soil table: columns `state`, `soil_level`
(see `MaizeAdvisorySystem.validate_soil_level`). -/
structure SoilRecord where
  state : String
  soil_level : String
deriving DecidableEq, Repr

/-- A row of the state profile table: columns `state`, `agro_zone`
(see `MaizeAdvisorySystem.generate_report`). -/
structure StateRecord where
  state : String
  agro_zone : String
deriving DecidableEq, Repr

/-- A row of the maize variety catalog
(see `MaizeAdvisorySystem.recommend_varieties`). -/
structure VarietyRecord where
  variety_name : String
  adaptation_zone : String
  drought_tolerance : String
  low_n_tolerance : String
  yield_potential : ℚ
  maturity_group : String
  grain_type : String
deriving DecidableEq, Repr

/-- The fertilizer dict returned by `recommend_fertilizer`. -/
structure FertilizerPlan where
  N : ℚ
  P2O5 : ℚ
  K2O : ℚ
  notes : String
deriving DecidableEq, Repr

/-- `str.lower`, embedded character-wise.  (The standard library's
`String.toLower` is the same character-wise lowercasing but is defined by
position-based recursion, which blocks evaluation inside proofs, so the
embedding uses this structural definition.) -/
def lowerString (s : String) : String := String.mk (s.data.map Char.toLower)

/-- The fixed month order set in `MaizeAdvisorySystem.__init__`. -/
def months_order : List String :=
  ["January", "February", "March", "April", "May", "June",
   "July", "August", "September", "October", "November", "December"]

/-- The 3-month window of `climate_class_from_rainfall`:
`[months_order[(start_idx + i) % 12] for i in range(3)]`.  A `none` marks the
`IndexError` Python would raise on an out-of-range index. -/
def windowMonths (mo : List String) (start_idx : Nat) : Option (List String) :=
  (List.range 3).mapM (fun i => mo.get? ((start_idx + i) % 12))

/-- The aggregation step of `climate_class_from_rainfall`: the sum of
`avg_rainfall_mm` over the rows whose `state` matches and whose `month` is in
the window (`.isin(months)`). -/
def matchedRainfallSum (climate_df : List ClimateRecord) (state : String)
    (months : List String) : ℚ :=
  ((climate_df.filter (fun r => r.state == state && months.contains r.month)).map
    (fun r => r.avg_rainfall_mm)).sum

/-- The rule-based classification at the end of `climate_class_from_rainfall`. -/
def classifyRainfallSum (rainfall_sum : ℚ) : String :=
  if rainfall_sum < 100 then "Low"
  else if rainfall_sum < 200 then "Medium"
  else "High"

/-- `climate_class_from_rainfall(climate_df, state, planting_month, months_order)`.
`none` marks the `ValueError` of `months_order.index(planting_month)` (or an
out-of-range month index). -/
def climate_class_from_rainfall (climate_df : List ClimateRecord)
    (state planting_month : String) (mo : List String) : Option String :=
  match mo.indexOf? planting_month with
  | none => none
  | some start_idx =>
    match windowMonths mo start_idx with
    | none => none
    | some months => some (classifyRainfallSum (matchedRainfallSum climate_df state months))

/-- `drought_risk_from_climate(climate_class)`: drought risk and irrigation
advice from the climate class. -/
def drought_risk_from_climate (climate_class : String) : String × String :=
  let c := lowerString climate_class
  if c == "low" then ("High", "Frequent irrigation required")
  else if c == "medium" then ("Medium", "Moderate irrigation recommended")
  else if c == "high" then ("Low", "Irrigation usually not required")
  else ("Unknown", "Unknown")

/-- `soil_fertility_risk(soil_level)`. -/
def soil_fertility_risk (soil_level : String) : String :=
  let s := lowerString soil_level
  if s == "low" then "High"
  else if s == "medium" then "Medium"
  else if s == "high" then "Low"
  else "Unknown"

/-- `recommend_fertilizer(soil_level)`. -/
def recommend_fertilizer (soil_level : String) : FertilizerPlan :=
  let s := lowerString soil_level
  if s == "low" then
    { N := 120, P2O5 := 60, K2O := 60,
      notes := "Basal NPK 15-15-15 at 400 kg/ha + Urea top-dress at 125 kg/ha and MOP 100 kg/ha recommended.\nSplit N: half at planting, half 4-6 weeks later." }
  else if s == "medium" then
    { N := 60, P2O5 := 30, K2O := 30,
      notes := "NPK 15-15-15 at moderate levels required + Split Urea fertilizer application" }
  else if s == "high" then
    { N := 30, P2O5 := 0, K2O := 0,
      notes := "Minimal fertilizer (only urea) input required." }
  else { N := 0, P2O5 := 0, K2O := 0, notes := "No recommendation" }

/-- `pest_disease_risk(drought_risk, soil_risk)`.  Note the comparisons are
against the exact strings, with no lowercasing. -/
def pest_disease_risk (drought_risk soil_risk : String) : String :=
  if drought_risk == "High" || soil_risk == "High" then "High"
  else if drought_risk == "Medium" || soil_risk == "Medium" then "Medium"
  else "Low"

/-- `pest_disease_recommendation(risk_level)`. -/
def pest_disease_recommendation (risk_level : String) : String :=
  let r := lowerString risk_level
  if r == "high" then "Intensive monitoring and timely pesticide application recommended."
  else if r == "medium" then "Regular monitoring with targeted interventions if needed."
  else "Routine monitoring sufficient."

/-- The `available` list of `validate_soil_level`: the lowercased `soil_level`
column of the rows of the soil table whose `state` matches. -/
def availableLevels (soil_df : List SoilRecord) (state : String) : List String :=
  (soil_df.filter (fun r => r.state == state)).map (fun r => lowerString r.soil_level)

/-- `MaizeAdvisorySystem.validate_soil_level`; the `.error` branch carries the
message of the raised `ValueError`. -/
def validate_soil_level (soil_df : List SoilRecord) (state soil_level : String) :
    Except String Unit :=
  let available := availableLevels soil_df state
  if available.contains (lowerString soil_level) then Except.ok ()
  else Except.error
    ("Soil fertility level '" ++ soil_level ++ "' not valid for state '" ++ state ++
      "'. Available levels: " ++ toString available)

/-- The filtering stages of `MaizeAdvisorySystem.recommend_varieties`: the zone
filter, then the drought-tolerance filter, then the low-nitrogen filter.  The
risk arguments are compared to the exact strings `"High"`/`"Medium"`; the
catalog columns are lowercased before comparison (`.str.lower()`). -/
def filteredVarieties (maize_df : List VarietyRecord)
    (agro_zone drought_risk soil_risk : String) : List VarietyRecord :=
  let df := maize_df.filter (fun r => r.adaptation_zone == agro_zone)
  let df :=
    if drought_risk == "High" then
      df.filter (fun r => lowerString r.drought_tolerance == "high")
    else if drought_risk == "Medium" then
      df.filter (fun r => ["medium", "high"].contains (lowerString r.drought_tolerance))
    else df
  if soil_risk == "High" then
    df.filter (fun r => lowerString r.low_n_tolerance == "high")
  else if soil_risk == "Medium" then
    df.filter (fun r => ["medium", "high"].contains (lowerString r.low_n_tolerance))
  else df

/-- `df.sort_values("yield_potential", ascending=False)` with pandas' default
`kind="quicksort"`.  Any executable embedding must fix a tie order, but the
source does not determine one: pandas reverses the frame and its index array,
argsorts the reversed values ascending with numpy's quicksort, and reverses the
resulting indexer; numpy's quicksort is a stable insertion sort only on arrays
of at most 16 elements, and on larger frames the order of tied rows is an
introsort implementation detail rather than a property of this program.  The
embedding fixes a stable descending merge sort; no theorem below rests on the
order of tied rows (the concrete selector evaluations all have distinct yields
or a single surviving row). -/
def sort_values_yield_desc (df : List VarietyRecord) : List VarietyRecord :=
  df.mergeSort (fun a b => b.yield_potential ≤ a.yield_potential)

/-- `MaizeAdvisorySystem.recommend_varieties`: filter, rank by yield, `.head(3)`. -/
def recommend_varieties (maize_df : List VarietyRecord)
    (agro_zone drought_risk soil_risk : String) : List VarietyRecord :=
  (sort_values_yield_desc (filteredVarieties maize_df agro_zone drought_risk soil_risk)).take 3

/-- The errors `MaizeAdvisorySystem.generate_report` can raise: the `ValueError`
of `validate_soil_level` (the spec's `InvalidInput`), and the unhandled lookup
failures (`.iloc[0]` on an empty selection, `months_order.index` on an unknown
month). -/
inductive ReportError where
  | invalidInput (msg : String)
  | lookupFailure
deriving DecidableEq, Repr

/-- The data assembled by `generate_report` (presentation/printing excluded). -/
structure Report where
  state : String
  agro_zone : String
  planting_month : String
  soil_level : String
  climate_class : String
  drought_risk : String
  irrigation_note : String
  soil_risk : String
  pest_risk : String
  pest_note : String
  fertilizer : FertilizerPlan
  varieties : List VarietyRecord
deriving DecidableEq, Repr

/-- `MaizeAdvisorySystem.generate_report(state, planting_month, soil_level)`:
validate the soil level, look up the agro zone (`.iloc[0]` of the matching
rows), run the classification pipeline, and assemble the report. -/
def generate_report (maize_df : List VarietyRecord) (state_df : List StateRecord)
    (climate_df : List ClimateRecord) (soil_df : List SoilRecord)
    (state planting_month soil_level : String) : Except ReportError Report :=
  match validate_soil_level soil_df state soil_level with
  | Except.error msg => Except.error (ReportError.invalidInput msg)
  | Except.ok _ =>
    match (state_df.filter (fun r => r.state == state)).head? with
    | none => Except.error ReportError.lookupFailure
    | some srow =>
      match climate_class_from_rainfall climate_df state planting_month months_order with
      | none => Except.error ReportError.lookupFailure
      | some climate_class =>
        let dr := drought_risk_from_climate climate_class
        let soil_risk := soil_fertility_risk soil_level
        let pest_risk := pest_disease_risk dr.1 soil_risk
        Except.ok
          { state := state
            agro_zone := srow.agro_zone
            planting_month := planting_month
            soil_level := soil_level
            climate_class := climate_class
            drought_risk := dr.1
            irrigation_note := dr.2
            soil_risk := soil_risk
            pest_risk := pest_risk
            pest_note := pest_disease_recommendation pest_risk
            fertilizer := recommend_fertilizer soil_level
            varieties := recommend_varieties maize_df srow.agro_zone dr.1 soil_risk }

/-! Specification-side definitions, used to state the claims against the
embedding above. -/

/-- The 3-element window of calendar months starting at index `k` of the fixed
month list and wrapping circularly past December, as the spec describes it. -/
def window3 (k : Nat) : List String :=
  [months_order.getD (k % 12) "", months_order.getD ((k + 1) % 12) "",
   months_order.getD ((k + 2) % 12) ""]

/-- The four-valued risk scale of the spec's data model. -/
inductive RiskFour where
  | low
  | medium
  | high
  | unknown
deriving DecidableEq, Fintype, Repr

/-- The string a `RiskFour` value is carried as between components. -/
def RiskFour.str : RiskFour → String
  | .low => "Low"
  | .medium => "Medium"
  | .high => "High"
  | .unknown => "Unknown"

/-- The pest/disease combination rule as the spec words it: High if either
input is High; else Medium if either is Medium; else Low, with the High check
strictly preceding the Medium check. -/
def pestSpec (d s : RiskFour) : String :=
  if d = RiskFour.high ∨ s = RiskFour.high then "High"
  else if d = RiskFour.medium ∨ s = RiskFour.medium then "Medium"
  else "Low"

/-- The ordering Low < Medium < High on climate classes, as a rank. -/
def classRank (c : String) : Nat :=
  if c == "High" then 2 else if c == "Medium" then 1 else 0

/-- `classRank` lifted to a possibly-failing classification. -/
def classRankO : Option String → Nat
  | none => 0
  | some c => classRank c

/-- Whether one record of the variety catalog survives all three filters of
`recommend_varieties` (the filters are row-wise, so `filteredVarieties` is the
corresponding `List.filter`; see `filteredVarieties_eq_filter`). -/
def keepVariety (agro_zone drought_risk soil_risk : String) (r : VarietyRecord) : Bool :=
  (r.adaptation_zone == agro_zone) &&
  (if drought_risk == "High" then lowerString r.drought_tolerance == "high"
   else if drought_risk == "Medium" then
     ["medium", "high"].contains (lowerString r.drought_tolerance)
   else true) &&
  (if soil_risk == "High" then lowerString r.low_n_tolerance == "high"
   else if soil_risk == "Medium" then
     ["medium", "high"].contains (lowerString r.low_n_tolerance)
   else true)

/-! Concrete fixtures, used by witnesses and counterexamples. -/

/-- The soil table of the test suite: levels Low, Medium, High for Kaduna. -/
def soilKaduna : List SoilRecord :=
  [{ state := "Kaduna", soil_level := "Low" },
   { state := "Kaduna", soil_level := "Medium" },
   { state := "Kaduna", soil_level := "High" }]

/-- A November/December/January climate table (wrap-around scenario). -/
def climNovA : List ClimateRecord :=
  [{ state := "R", month := "December", avg_rainfall_mm := 50 },
   { state := "R", month := "January", avg_rainfall_mm := 60 },
   { state := "R", month := "November", avg_rainfall_mm := 40 }]

/-- A row permutation of `climNovA`. -/
def climNovB : List ClimateRecord :=
  [{ state := "R", month := "November", avg_rainfall_mm := 40 },
   { state := "R", month := "December", avg_rainfall_mm := 50 },
   { state := "R", month := "January", avg_rainfall_mm := 60 }]

/-- A plain catalog row in zone Z, used by concrete witnesses. -/
def vTieA : VarietyRecord :=
  { variety_name := "TieA", adaptation_zone := "Z", drought_tolerance := "Low",
    low_n_tolerance := "Low", yield_potential := 5, maturity_group := "Early",
    grain_type := "White" }

/-- A high-drought-tolerance, low-yield catalog row. -/
def vH1 : VarietyRecord :=
  { variety_name := "H1", adaptation_zone := "Z", drought_tolerance := "High",
    low_n_tolerance := "Low", yield_potential := 1, maturity_group := "Early",
    grain_type := "White" }

/-- A medium-drought-tolerance catalog row with yield 8. -/
def vM8 : VarietyRecord :=
  { variety_name := "M8", adaptation_zone := "Z", drought_tolerance := "Medium",
    low_n_tolerance := "Low", yield_potential := 8, maturity_group := "Early",
    grain_type := "White" }

/-- A medium-drought-tolerance catalog row with yield 9. -/
def vM9 : VarietyRecord :=
  { variety_name := "M9", adaptation_zone := "Z", drought_tolerance := "Medium",
    low_n_tolerance := "Low", yield_potential := 9, maturity_group := "Early",
    grain_type := "White" }

/-- A medium-drought-tolerance catalog row with yield 10. -/
def vM10 : VarietyRecord :=
  { variety_name := "M10", adaptation_zone := "Z", drought_tolerance := "Medium",
    low_n_tolerance := "Low", yield_potential := 10, maturity_group := "Early",
    grain_type := "White" }

/-- A catalog on which the drought-risk High selection is not contained in the
Medium selection: the three medium-tolerance rows outrank `vH1`. -/
def catNarrow : List VarietyRecord := [vM10, vM9, vM8, vH1]

/-! Helper lemmas about the climate classifier. -/

theorem windowMonths_months_order : ∀ k, k < 12 →
    windowMonths months_order k = some (window3 k) := by decide

theorem indexOf_months_getD : ∀ k, k < 12 →
    months_order.indexOf? (months_order.getD k "") = some k := by decide

theorem climate_class_at_index (cl : List ClimateRecord) (st : String) (k : Nat)
    (hk : k < 12) :
    climate_class_from_rainfall cl st (months_order.getD k "") months_order
      = some (classifyRainfallSum (matchedRainfallSum cl st (window3 k))) := by
  simp only [climate_class_from_rainfall, indexOf_months_getD k hk,
    windowMonths_months_order k hk]

theorem matchedRainfallSum_cons (a : ClimateRecord) (t : List ClimateRecord)
    (st : String) (w : List String) :
    matchedRainfallSum (a :: t) st w
      = (if a.state = st ∧ a.month ∈ w then a.avg_rainfall_mm else 0)
        + matchedRainfallSum t st w := by
  unfold matchedRainfallSum
  rw [List.filter_cons]
  by_cases h : (a.state == st && w.contains a.month) = true
  · have hp : a.state = st ∧ a.month ∈ w := by simpa using h
    rw [if_pos h, List.map_cons, List.sum_cons, if_pos hp]
  · have hp : ¬(a.state = st ∧ a.month ∈ w) := by simpa using h
    rw [if_neg h, if_neg hp, zero_add]

theorem matchedRainfallSum_eq_ite_sum (cl : List ClimateRecord) (st : String)
    (w : List String) :
    matchedRainfallSum cl st w
      = (cl.map (fun r => if r.state = st ∧ r.month ∈ w then r.avg_rainfall_mm else 0)).sum := by
  induction cl with
  | nil => rfl
  | cons a t ih =>
    rw [matchedRainfallSum_cons, List.map_cons, List.sum_cons, ih]

theorem matchedRainfallSum_perm {cl₁ cl₂ : List ClimateRecord} (st : String)
    (w : List String) (h : cl₁.Perm cl₂) :
    matchedRainfallSum cl₁ st w = matchedRainfallSum cl₂ st w :=
  ((h.filter _).map _).sum_eq

theorem matchedRainfallSum_append (l₁ l₂ : List ClimateRecord) (st : String)
    (w : List String) :
    matchedRainfallSum (l₁ ++ l₂) st w
      = matchedRainfallSum l₁ st w + matchedRainfallSum l₂ st w := by
  unfold matchedRainfallSum
  rw [List.filter_append, List.map_append, List.sum_append]

theorem classRank_le_two (c : String) : classRank c ≤ 2 := by
  unfold classRank
  split_ifs <;> omega

theorem classRank_classify_mono {s t : ℚ} (h : s ≤ t) :
    classRank (classifyRainfallSum s) ≤ classRank (classifyRainfallSum t) := by
  by_cases h1 : t < 100
  · have hs : s < 100 := lt_of_le_of_lt h h1
    simp [classifyRainfallSum, hs, h1]
  · by_cases h2 : t < 200
    · have hs : s < 200 := lt_of_le_of_lt h h2
      by_cases h3 : s < 100 <;> simp [classifyRainfallSum, classRank, h1, h2, h3, hs]
    · calc classRank (classifyRainfallSum s) ≤ 2 := classRank_le_two _
        _ = classRank (classifyRainfallSum t) := by
            simp [classifyRainfallSum, classRank, h1, h2]

theorem classify_eq_low_iff (s : ℚ) : classifyRainfallSum s = "Low" ↔ s < 100 := by
  unfold classifyRainfallSum
  split_ifs with h1 h2
  · simp [h1]
  · exact ⟨fun hx => absurd hx (by decide), fun hx => absurd hx h1⟩
  · exact ⟨fun hx => absurd hx (by decide), fun hx => absurd hx h1⟩

theorem classify_eq_medium_iff (s : ℚ) :
    classifyRainfallSum s = "Medium" ↔ 100 ≤ s ∧ s < 200 := by
  unfold classifyRainfallSum
  split_ifs with h1 h2
  · exact ⟨fun hx => absurd hx (by decide), fun hx => (not_lt.mpr hx.1 h1).elim⟩
  · exact ⟨fun _ => ⟨not_lt.mp h1, h2⟩, fun _ => rfl⟩
  · exact ⟨fun hx => absurd hx (by decide), fun hx => (h2 hx.2).elim⟩

theorem classify_eq_high_iff (s : ℚ) : classifyRainfallSum s = "High" ↔ 200 ≤ s := by
  unfold classifyRainfallSum
  split_ifs with h1 h2
  · exact ⟨fun hx => absurd hx (by decide),
      fun hx => absurd (lt_of_le_of_lt hx h1) (by norm_num)⟩
  · exact ⟨fun hx => absurd hx (by decide),
      fun hx => absurd (lt_of_le_of_lt hx h2) (lt_irrefl 200)⟩
  · exact ⟨fun _ => not_lt.mp h2, fun _ => rfl⟩

/-! Helper lemmas about soil-level validation. -/

theorem validate_ok_iff (soil_df : List SoilRecord) (st lvl : String) :
    validate_soil_level soil_df st lvl = Except.ok ()
      ↔ (availableLevels soil_df st).contains (lowerString lvl) = true := by
  unfold validate_soil_level
  by_cases h : (availableLevels soil_df st).contains (lowerString lvl) = true
  · simp [h]
  · simp [h]

theorem validate_error_msg (soil_df : List SoilRecord) (st lvl : String)
    (h : ¬ (availableLevels soil_df st).contains (lowerString lvl) = true) :
    validate_soil_level soil_df st lvl = Except.error
      ("Soil fertility level '" ++ lvl ++ "' not valid for state '" ++ st ++
        "'. Available levels: " ++ toString (availableLevels soil_df st)) := by
  unfold validate_soil_level
  rw [if_neg h]

theorem validate_accepts_table (soil_df : List SoilRecord) (st : String)
    (r : SoilRecord) (hr : r ∈ soil_df) (hst : r.state = st) :
    validate_soil_level soil_df st r.soil_level = Except.ok () := by
  rw [validate_ok_iff]
  have : lowerString r.soil_level ∈ availableLevels soil_df st := by
    unfold availableLevels
    exact List.mem_map.mpr ⟨r, List.mem_filter.mpr ⟨hr, by simp [hst]⟩, rfl⟩
  simpa using this

/-! Helper lemmas about the variety selector. -/

theorem filteredVarieties_eq_filter (mdf : List VarietyRecord) (z dr sr : String) :
    filteredVarieties mdf z dr sr = mdf.filter (keepVariety z dr sr) := by
  unfold filteredVarieties
  split_ifs <;>
    simp only [List.filter_filter] <;>
    refine List.filter_congr fun a _ => ?_ <;>
    simp_all [keepVariety, Bool.and_comm]

theorem yieldDesc_trans : ∀ (a b c : VarietyRecord),
    (b.yield_potential ≤ a.yield_potential : Bool) →
    (c.yield_potential ≤ b.yield_potential : Bool) →
    (c.yield_potential ≤ a.yield_potential : Bool) := by
  intro a b c hab hbc
  simp only [decide_eq_true_eq] at *
  exact le_trans hbc hab

theorem yieldDesc_total : ∀ (a b : VarietyRecord),
    ((b.yield_potential ≤ a.yield_potential : Bool) ||
     (a.yield_potential ≤ b.yield_potential : Bool)) := by
  intro a b
  simp [le_total]

theorem recommend_length_le (mdf : List VarietyRecord) (z dr sr : String) :
    (recommend_varieties mdf z dr sr).length ≤ 3 := by
  unfold recommend_varieties
  simp [List.length_take]

theorem recommend_sorted (mdf : List VarietyRecord) (z dr sr : String) :
    (recommend_varieties mdf z dr sr).Pairwise
      (fun a b => b.yield_potential ≤ a.yield_potential) := by
  unfold recommend_varieties sort_values_yield_desc
  have hs := List.sorted_mergeSort yieldDesc_trans yieldDesc_total
    (filteredVarieties mdf z dr sr)
  exact ((hs.imp (by intro a b h; simpa using h)).sublist (List.take_sublist _ _))

theorem recommend_empty_iff (mdf : List VarietyRecord) (z dr sr : String) :
    recommend_varieties mdf z dr sr = [] ↔ filteredVarieties mdf z dr sr = [] := by
  unfold recommend_varieties sort_values_yield_desc
  rw [List.take_eq_nil_iff]
  constructor
  · rintro (h | h)
    · omega
    · have := congrArg List.length h
      simp at this
      exact List.eq_nil_of_length_eq_zero (by simpa using this)
  · intro h
    right
    rw [h]
    simp [List.mergeSort]

theorem mem_filteredVarieties_iff (mdf : List VarietyRecord) (z dr sr : String)
    (x : VarietyRecord) :
    x ∈ filteredVarieties mdf z dr sr ↔ x ∈ mdf ∧ keepVariety z dr sr x = true := by
  rw [filteredVarieties_eq_filter, List.mem_filter]

theorem keepVariety_high_le_medium (z sr : String) (x : VarietyRecord)
    (h : keepVariety z "High" sr x = true) : keepVariety z "Medium" sr x = true := by
  unfold keepVariety at h ⊢
  simp only [show (("High":String) == "High") = true from rfl,
    show (("Medium":String) == "High") = false from rfl,
    show (("Medium":String) == "Medium") = true from rfl, if_true, if_false] at h ⊢
  simp_all

theorem mem_recommend_sub_catalog (mdf : List VarietyRecord) (z dr sr : String)
    (x : VarietyRecord) (hx : x ∈ recommend_varieties mdf z dr sr) : x ∈ mdf := by
  unfold recommend_varieties sort_values_yield_desc at hx
  have h1 := List.mem_of_mem_take hx
  rw [List.mem_mergeSort, mem_filteredVarieties_iff] at h1
  exact h1.1

theorem recommend_eq_of_sorted (mdf : List VarietyRecord) (z dr sr : String)
    (l : List VarietyRecord) (hfil : filteredVarieties mdf z dr sr = l)
    (hsort : l.Pairwise (fun a b => b.yield_potential ≤ a.yield_potential)) :
    recommend_varieties mdf z dr sr = l.take 3 := by
  unfold recommend_varieties sort_values_yield_desc
  rw [hfil, List.mergeSort_of_sorted (hsort.imp (by intro a b h; simpa using h))]

theorem recommend_singleton (v : VarietyRecord) (z dr sr : String) :
    recommend_varieties [v] z dr sr = if keepVariety z dr sr v then [v] else [] := by
  unfold recommend_varieties sort_values_yield_desc
  rw [filteredVarieties_eq_filter]
  by_cases h : keepVariety z dr sr v = true
  · rw [if_pos h]
    simp [List.filter_cons, h]
  · rw [if_neg h]
    simp [List.filter_cons, h]

theorem recommend_other_drought (mdf : List VarietyRecord) (z dr sr : String)
    (h1 : dr ≠ "High") (h2 : dr ≠ "Medium") :
    recommend_varieties mdf z dr sr = recommend_varieties mdf z "Unknown" sr := by
  unfold recommend_varieties
  have hfil : filteredVarieties mdf z dr sr = filteredVarieties mdf z "Unknown" sr := by
    unfold filteredVarieties
    rw [beq_eq_false_iff_ne.mpr h1, beq_eq_false_iff_ne.mpr h2,
      show (("Unknown" : String) == "High") = false from rfl,
      show (("Unknown" : String) == "Medium") = false from rfl]
  rw [hfil]

theorem recommend_other_soil (mdf : List VarietyRecord) (z dr sr : String)
    (h1 : sr ≠ "High") (h2 : sr ≠ "Medium") :
    recommend_varieties mdf z dr sr = recommend_varieties mdf z dr "Unknown" := by
  unfold recommend_varieties
  have hfil : filteredVarieties mdf z dr sr = filteredVarieties mdf z dr "Unknown" := by
    unfold filteredVarieties
    rw [beq_eq_false_iff_ne.mpr h1, beq_eq_false_iff_ne.mpr h2,
      show (("Unknown" : String) == "High") = false from rfl,
      show (("Unknown" : String) == "Medium") = false from rfl]
  rw [hfil]

theorem keepVariety_drought_toLower (z dr sr nm zn dt dt' lnt : String) (y : ℚ)
    (mg gt : String) (h : lowerString dt = lowerString dt') :
    keepVariety z dr sr ⟨nm, zn, dt, lnt, y, mg, gt⟩
      = keepVariety z dr sr ⟨nm, zn, dt', lnt, y, mg, gt⟩ := by
  unfold keepVariety
  dsimp only
  rw [h]

theorem keepVariety_lowN_toLower (z dr sr nm zn dt lnt lnt' : String) (y : ℚ)
    (mg gt : String) (h : lowerString lnt = lowerString lnt') :
    keepVariety z dr sr ⟨nm, zn, dt, lnt, y, mg, gt⟩
      = keepVariety z dr sr ⟨nm, zn, dt, lnt', y, mg, gt⟩ := by
  unfold keepVariety
  dsimp only
  rw [h]

/-! The claims. -/

/-- C2: for every climate table, region, and planting month, `classify` returns
Low when the rainfall sum over the matched records is strictly less than 100,
Medium when the sum is at least 100 and strictly less than 200, and High when
the sum is at least 200; when no record matches the region and window, the sum
is 0 and the result is Low (no error is raised). -/
theorem climate_thresholds_spec (cl : List ClimateRecord) (st m : String)
    (hm : m ∈ months_order) :
    (∀ s : ℚ, (classifyRainfallSum s = "Low" ↔ s < 100)
      ∧ (classifyRainfallSum s = "Medium" ↔ 100 ≤ s ∧ s < 200)
      ∧ (classifyRainfallSum s = "High" ↔ 200 ≤ s))
    ∧ ∃ k, k < 12 ∧ months_order.getD k "" = m
        ∧ climate_class_from_rainfall cl st m months_order
            = some (classifyRainfallSum (matchedRainfallSum cl st (window3 k)))
        ∧ ((∀ r ∈ cl, ¬(r.state = st ∧ r.month ∈ window3 k)) →
            matchedRainfallSum cl st (window3 k) = 0
            ∧ climate_class_from_rainfall cl st m months_order = some "Low") := by
  obtain ⟨k, hklen, hget⟩ := List.mem_iff_getElem.mp hm
  have hk : k < 12 := by simpa using hklen
  have hgd : months_order.getD k "" = m := by
    simp [List.getD_eq_getElem?_getD, List.getElem?_eq_getElem hklen, hget]
  refine ⟨fun s => ⟨classify_eq_low_iff s, classify_eq_medium_iff s, classify_eq_high_iff s⟩,
    k, hk, hgd, ?_, ?_⟩
  · rw [← hgd]
    exact climate_class_at_index cl st k hk
  · intro hnone
    have h0 : matchedRainfallSum cl st (window3 k) = 0 := by
      rw [matchedRainfallSum_eq_ite_sum]
      apply List.sum_eq_zero
      intro x hx
      obtain ⟨r, hr, rfl⟩ := List.mem_map.mp hx
      simp [hnone r hr]
    have hlow : classifyRainfallSum 0 = "Low" := by
      unfold classifyRainfallSum
      rw [if_pos (by norm_num)]
    refine ⟨h0, ?_⟩
    rw [← hgd, climate_class_at_index cl st k hk, h0, hlow]

/-- Witness for C2: on an empty climate table the classifier returns Low for
Kaduna and July. -/
theorem climate_thresholds_spec_witness :
    climate_class_from_rainfall [] "Kaduna" "July" months_order = some "Low" := by
  obtain ⟨-, k, hk, hgd, heq, hempty⟩ :=
    climate_thresholds_spec [] "Kaduna" "July" (by decide)
  exact (hempty (by simp)).2

/-- C3: for every climate table, region, and planting month among the 12
calendar month names, `classify` sums rainfall over exactly those records whose
region matches and whose month lies in the 3-month circular window starting at
the planting month (every duplicate row contributes via the pointwise sum), and
the result is invariant under permutation of the table rows. -/
theorem climate_window_spec (cl cl₂ : List ClimateRecord) (st : String) (k : Nat)
    (hk : k < 12) (hperm : cl.Perm cl₂) :
    climate_class_from_rainfall cl st (months_order.getD k "") months_order
      = some (classifyRainfallSum
          ((cl.map (fun r =>
            if r.state = st ∧ r.month ∈ window3 k then r.avg_rainfall_mm else 0)).sum))
    ∧ climate_class_from_rainfall cl st (months_order.getD k "") months_order
        = climate_class_from_rainfall cl₂ st (months_order.getD k "") months_order := by
  constructor
  · rw [climate_class_at_index cl st k hk, ← matchedRainfallSum_eq_ite_sum]
  · rw [climate_class_at_index cl st k hk, climate_class_at_index cl₂ st k hk,
      matchedRainfallSum_perm st (window3 k) hperm]

/-- Witness for C3: the November window wraps to November, December, January,
and a permuted November/December/January table classifies identically. -/
theorem climate_window_spec_witness :
    window3 10 = ["November", "December", "January"]
    ∧ climate_class_from_rainfall climNovA "R" (months_order.getD 10 "") months_order
        = climate_class_from_rainfall climNovB "R" (months_order.getD 10 "") months_order :=
  ⟨by decide, (climate_window_spec climNovA climNovB "R" 10 (by decide) (by decide)).2⟩

/-- C4: `pest_disease_risk` returns High when either input is High, else Medium
when either input is Medium, else Low, with the High check strictly preceding
the Medium check; in particular High+Unknown is High, Medium+Unknown is Medium,
Unknown+Unknown is Low. -/
theorem pest_risk_precedence_spec :
    (∀ d s : RiskFour, pest_disease_risk d.str s.str = pestSpec d s)
    ∧ pest_disease_risk "High" "Unknown" = "High"
    ∧ pest_disease_risk "Medium" "Unknown" = "Medium"
    ∧ pest_disease_risk "Unknown" "Unknown" = "Low" := by
  refine ⟨by decide, by decide, by decide, by decide⟩

/-- C6 counterexample: `pest_disease_risk` is not case-insensitive: the case
variant "high" of "High" changes the result. -/
theorem case_insensitive_counterexample :
    lowerString "high" = lowerString "High"
    ∧ pest_disease_risk "high" "low" = "Low"
    ∧ pest_disease_risk "High" "low" = "High"
    ∧ pest_disease_risk "high" "low" ≠ pest_disease_risk "High" "low" := by
  refine ⟨by decide, by decide, by decide, by decide⟩

/-- C6 amended: `drought_risk_from_climate` and `soil_fertility_risk` are
case-insensitive on their string input; `pest_disease_risk` is not (it compares
its arguments to the exact strings "High" and "Medium"). -/
theorem mappers_case_insensitive (s t : String) (h : lowerString s = lowerString t) :
    drought_risk_from_climate s = drought_risk_from_climate t
    ∧ soil_fertility_risk s = soil_fertility_risk t := by
  simp only [drought_risk_from_climate, soil_fertility_risk]
  rw [h]
  exact ⟨rfl, rfl⟩

/-- Witness for the amended C6: "LOW" and "low" map identically. -/
theorem mappers_case_insensitive_witness :
    drought_risk_from_climate "LOW" = drought_risk_from_climate "low"
    ∧ soil_fertility_risk "LOW" = soil_fertility_risk "low" :=
  mappers_case_insensitive "LOW" "low" (by decide)

/-- C8: the classifier is monotonic in rainfall: increasing the rainfall value
of any one record (same region and month) never decreases the class under the
ordering Low < Medium < High. -/
theorem climate_monotone_spec (pre post : List ClimateRecord) (r r' : ClimateRecord)
    (st m : String) (mo : List String)
    (hstate : r.state = r'.state) (hmonth : r.month = r'.month)
    (hrain : r.avg_rainfall_mm ≤ r'.avg_rainfall_mm) :
    classRankO (climate_class_from_rainfall (pre ++ r :: post) st m mo)
      ≤ classRankO (climate_class_from_rainfall (pre ++ r' :: post) st m mo) := by
  unfold climate_class_from_rainfall
  cases hidx : mo.indexOf? m with
  | none => simp [classRankO]
  | some start_idx =>
    cases hw : windowMonths mo start_idx with
    | none => simp only [hw]; simp [classRankO]
    | some w =>
      simp only [hw, classRankO]
      apply classRank_classify_mono
      rw [matchedRainfallSum_append, matchedRainfallSum_append,
        matchedRainfallSum_cons, matchedRainfallSum_cons]
      have hcond : (r.state = st ∧ r.month ∈ w) ↔ (r'.state = st ∧ r'.month ∈ w) := by
        rw [hstate, hmonth]
      by_cases hc : r'.state = st ∧ r'.month ∈ w
      · rw [if_pos (hcond.mpr hc), if_pos hc]
        linarith
      · rw [if_neg (fun hx => hc (hcond.mp hx)), if_neg hc]

/-- Witness for C8: raising a matched July rainfall value from 40 to 150 does
not decrease the class. -/
theorem climate_monotone_spec_witness :
    classRankO (climate_class_from_rainfall
        [{ state := "K", month := "July", avg_rainfall_mm := 40 }] "K" "July" months_order)
      ≤ classRankO (climate_class_from_rainfall
        [{ state := "K", month := "July", avg_rainfall_mm := 150 }] "K" "July" months_order) :=
  climate_monotone_spec [] [] _ _ "K" "July" months_order rfl rfl (by decide)

/-- C9 counterexample: `climate_class_from_rainfall` does not return a value
when the planting month is not one of the 12 recognized names (Python raises
`ValueError` from `months_order.index`). -/
theorem classify_unknown_month_counterexample :
    climate_class_from_rainfall [] "Kaduna" "Harmattan" months_order = none := by decide

/-- C9 amended: the classifier returns a value exactly when the planting month
occurs in the fixed month list; the risk mappers, recommendation generators and
the variety selector are total, with values in their expected ranges, and the
selector only returns catalog rows. -/
theorem totality_spec :
    (∀ (cl : List ClimateRecord) (st m : String),
      (climate_class_from_rainfall cl st m months_order).isSome = true ↔ m ∈ months_order)
    ∧ (∀ s : String,
        (drought_risk_from_climate s).1 ∈ (["High", "Medium", "Low", "Unknown"] : List String))
    ∧ (∀ s : String, soil_fertility_risk s ∈ (["High", "Medium", "Low", "Unknown"] : List String))
    ∧ (∀ d s : String, pest_disease_risk d s ∈ (["High", "Medium", "Low"] : List String))
    ∧ (∀ s : String, pest_disease_recommendation s ∈
        (["Intensive monitoring and timely pesticide application recommended.",
          "Regular monitoring with targeted interventions if needed.",
          "Routine monitoring sufficient."] : List String))
    ∧ (∀ s : String, (recommend_fertilizer s).N ∈ ([120, 60, 30, 0] : List ℚ))
    ∧ (∀ (mdf : List VarietyRecord) (z dr sr : String) (x : VarietyRecord),
        x ∈ recommend_varieties mdf z dr sr → x ∈ mdf) := by
  refine ⟨?_, ?_, ?_, ?_, ?_, ?_,
    fun mdf z dr sr x hx => mem_recommend_sub_catalog mdf z dr sr x hx⟩
  · intro cl st m
    constructor
    · intro h
      by_contra hmem
      have hnone : months_order.indexOf? m = none := by
        rw [List.indexOf?_eq_none_iff]
        intro x hx
        simp only [beq_iff_eq]
        intro he
        exact hmem (he ▸ hx)
      unfold climate_class_from_rainfall at h
      rw [hnone] at h
      simp at h
    · intro hmem
      obtain ⟨k, hklen, hget⟩ := List.mem_iff_getElem.mp hmem
      have hk : k < 12 := by simpa using hklen
      have hgd : months_order.getD k "" = m := by
        simp [List.getD_eq_getElem?_getD, List.getElem?_eq_getElem hklen, hget]
      rw [← hgd, climate_class_at_index cl st k hk]
      simp
  · intro s
    simp only [drought_risk_from_climate]
    split_ifs <;> simp
  · intro s
    simp only [soil_fertility_risk]
    split_ifs <;> simp
  · intro d s
    simp only [pest_disease_risk]
    split_ifs <;> simp
  · intro s
    simp only [pest_disease_recommendation]
    split_ifs <;> simp
  · intro s
    simp only [recommend_fertilizer]
    split_ifs <;> simp

/-- Witness for the amended C9: a concrete selector run stays inside the
catalog, and July is accepted by the classifier. -/
theorem totality_spec_witness :
    vTieA ∈ ([vTieA] : List VarietyRecord)
    ∧ (climate_class_from_rainfall [] "K" "July" months_order).isSome = true :=
  ⟨totality_spec.2.2.2.2.2.2 [vTieA] "Z" "Low" "Low" vTieA
      (by rw [recommend_singleton]; decide),
    (totality_spec.1 [] "K" "July").mpr (by decide)⟩

/-- C1: `generate_report` raises `InvalidInput` iff the supplied soil level,
compared case-insensitively, is absent from the soil levels listed for the
region; when it raises, the message names the offending level and lists the
available set; and every soil level present in the region's table is accepted
by the validation. -/
theorem soil_level_validation_spec (maize_df : List VarietyRecord)
    (state_df : List StateRecord) (climate_df : List ClimateRecord)
    (soil_df : List SoilRecord) (st m lvl : String) :
    ((∃ msg, generate_report maize_df state_df climate_df soil_df st m lvl
        = Except.error (ReportError.invalidInput msg))
      ↔ ¬ (availableLevels soil_df st).contains (lowerString lvl) = true)
    ∧ (¬ (availableLevels soil_df st).contains (lowerString lvl) = true →
        generate_report maize_df state_df climate_df soil_df st m lvl
          = Except.error (ReportError.invalidInput
              ("Soil fertility level '" ++ lvl ++ "' not valid for state '" ++ st ++
                "'. Available levels: " ++ toString (availableLevels soil_df st))))
    ∧ (∀ r ∈ soil_df, r.state = st →
        validate_soil_level soil_df st r.soil_level = Except.ok ()) := by
  have herr : ¬ (availableLevels soil_df st).contains (lowerString lvl) = true →
      generate_report maize_df state_df climate_df soil_df st m lvl
        = Except.error (ReportError.invalidInput
            ("Soil fertility level '" ++ lvl ++ "' not valid for state '" ++ st ++
              "'. Available levels: " ++ toString (availableLevels soil_df st))) := by
    intro hc
    unfold generate_report
    rw [validate_error_msg soil_df st lvl hc]
  refine ⟨⟨?_, fun hc => ⟨_, herr hc⟩⟩, herr,
    fun r hr hst => validate_accepts_table soil_df st r hr hst⟩
  rintro ⟨msg, hmsg⟩ hc
  have hok : validate_soil_level soil_df st lvl = Except.ok () :=
    (validate_ok_iff soil_df st lvl).mpr hc
  unfold generate_report at hmsg
  rw [hok] at hmsg
  cases hhead : (state_df.filter (fun r => r.state == st)).head? with
  | none =>
    rw [hhead] at hmsg
    simp at hmsg
  | some srow =>
    rw [hhead] at hmsg
    cases hclass : climate_class_from_rainfall climate_df st m months_order with
    | none =>
      rw [hclass] at hmsg
      simp at hmsg
    | some c =>
      rw [hclass] at hmsg
      simp at hmsg

/-- Witness for C1: with the Kaduna soil table, "Very High" is rejected with
the documented message and "High" passes validation. -/
theorem soil_level_validation_spec_witness :
    generate_report [] [] [] soilKaduna "Kaduna" "July" "Very High"
      = Except.error (ReportError.invalidInput
          ("Soil fertility level '" ++ "Very High" ++ "' not valid for state '" ++
            "Kaduna" ++ "'. Available levels: " ++
            toString (availableLevels soilKaduna "Kaduna")))
    ∧ validate_soil_level soilKaduna "Kaduna" "High" = Except.ok () :=
  ⟨(soil_level_validation_spec [] [] [] soilKaduna "Kaduna" "July" "Very High").2.1
      (by decide),
    (soil_level_validation_spec [] [] [] soilKaduna "Kaduna" "July" "High").2.2
      ⟨"Kaduna", "High"⟩ (by decide) rfl⟩

/-- C7 counterexample: on `catNarrow` the returned set for drought_risk High
contains `vH1`, which the returned set for Medium (the three higher-yield
medium-tolerance rows, cut to the top 3) does not. -/
theorem select_narrowing_counterexample :
    vH1 ∈ recommend_varieties catNarrow "Z" "High" "Low"
    ∧ vH1 ∉ recommend_varieties catNarrow "Z" "Medium" "Low" := by
  have hHigh : recommend_varieties catNarrow "Z" "High" "Low" = [vH1] := by
    rw [recommend_eq_of_sorted _ _ _ _ [vH1] (by decide) (by decide)]
    decide
  have hMed : recommend_varieties catNarrow "Z" "Medium" "Low"
      = [vM10, vM9, vM8] := by
    rw [recommend_eq_of_sorted _ _ _ _ [vM10, vM9, vM8, vH1] (by decide) (by decide)]
    decide
  rw [hHigh, hMed]
  exact ⟨by decide, by decide⟩

/-- C7 amended: before ranking and the top-3 cut, every record surviving the
filters with drought_risk High also survives them with drought_risk Medium. -/
theorem filter_narrowing_spec (mdf : List VarietyRecord) (z sr : String)
    (x : VarietyRecord) (hx : x ∈ filteredVarieties mdf z "High" sr) :
    x ∈ filteredVarieties mdf z "Medium" sr := by
  rw [mem_filteredVarieties_iff] at hx ⊢
  exact ⟨hx.1, keepVariety_high_le_medium z sr x hx.2⟩

/-- Witness for the amended C7: `vH1` survives the Medium filters. -/
theorem filter_narrowing_spec_witness :
    vH1 ∈ filteredVarieties catNarrow "Z" "Medium" "Low" :=
  filter_narrowing_spec catNarrow "Z" "Low" vH1 (by decide)

/-- C10: the selector compares its risk arguments case-sensitively to the exact
strings "High" and "Medium" (a case variant such as "high" or "HIGH" applies no
tolerance filter, behaving like Low/Unknown), while catalog tolerance values
are matched case-insensitively. -/
theorem select_risk_exact_match_spec :
    (∀ (mdf : List VarietyRecord) (z dr sr : String), dr ≠ "High" → dr ≠ "Medium" →
      recommend_varieties mdf z dr sr = recommend_varieties mdf z "Unknown" sr)
    ∧ (∀ (mdf : List VarietyRecord) (z dr sr : String), sr ≠ "High" → sr ≠ "Medium" →
      recommend_varieties mdf z dr sr = recommend_varieties mdf z dr "Unknown")
    ∧ (("high" : String) ≠ "High" ∧ ("high" : String) ≠ "Medium"
        ∧ ("HIGH" : String) ≠ "High" ∧ ("HIGH" : String) ≠ "Medium")
    ∧ (∀ (z dr sr nm zn dt dt' lnt : String) (y : ℚ) (mg gt : String),
        lowerString dt = lowerString dt' →
        (recommend_varieties [⟨nm, zn, dt, lnt, y, mg, gt⟩] z dr sr).length
          = (recommend_varieties [⟨nm, zn, dt', lnt, y, mg, gt⟩] z dr sr).length)
    ∧ (∀ (z dr sr nm zn dt lnt lnt' : String) (y : ℚ) (mg gt : String),
        lowerString lnt = lowerString lnt' →
        (recommend_varieties [⟨nm, zn, dt, lnt, y, mg, gt⟩] z dr sr).length
          = (recommend_varieties [⟨nm, zn, dt, lnt', y, mg, gt⟩] z dr sr).length) := by
  refine ⟨fun mdf z dr sr h1 h2 => recommend_other_drought mdf z dr sr h1 h2,
    fun mdf z dr sr h1 h2 => recommend_other_soil mdf z dr sr h1 h2,
    ⟨by decide, by decide, by decide, by decide⟩, ?_, ?_⟩
  · intro z dr sr nm zn dt dt' lnt y mg gt h
    rw [recommend_singleton, recommend_singleton,
      keepVariety_drought_toLower z dr sr nm zn dt dt' lnt y mg gt h]
    split_ifs <;> rfl
  · intro z dr sr nm zn dt lnt lnt' y mg gt h
    rw [recommend_singleton, recommend_singleton,
      keepVariety_lowN_toLower z dr sr nm zn dt lnt lnt' y mg gt h]
    split_ifs <;> rfl

/-- Witness for C10 at concrete case variants of the risk arguments and of the
catalog tolerance values. -/
theorem select_risk_exact_match_spec_witness :
    recommend_varieties [] "Z" "high" "Low" = recommend_varieties [] "Z" "Unknown" "Low"
    ∧ recommend_varieties [] "Z" "Low" "HIGH" = recommend_varieties [] "Z" "Low" "Unknown"
    ∧ (recommend_varieties [⟨"V", "Z", "HIGH", "Low", 5, "E", "W"⟩] "Z" "High" "Low").length
        = (recommend_varieties [⟨"V", "Z", "high", "Low", 5, "E", "W"⟩] "Z" "High" "Low").length
    ∧ (recommend_varieties [⟨"V", "Z", "Low", "HIGH", 5, "E", "W"⟩] "Z" "Low" "High").length
        = (recommend_varieties [⟨"V", "Z", "Low", "high", 5, "E", "W"⟩] "Z" "Low" "High").length :=
  ⟨select_risk_exact_match_spec.1 [] "Z" "high" "Low" (by decide) (by decide),
    select_risk_exact_match_spec.2.1 [] "Z" "Low" "HIGH" (by decide) (by decide),
    select_risk_exact_match_spec.2.2.2.1 "Z" "High" "Low" "V" "Z" "HIGH" "high" "Low" 5 "E" "W"
      (by decide),
    select_risk_exact_match_spec.2.2.2.2 "Z" "Low" "High" "V" "Z" "Low" "HIGH" "high" 5 "E" "W"
      (by decide)⟩
